import Mathlib

/-!
# Verification of the IDS camera manager (`Ids_Camera_Manager.py`)

A shallow embedding of the parts of `CameraManager` / `CameraProperties`
that the claims of the specification are about:

* device-side ROI and exposure parameter setters (`set_roi`, `set_Exposure`);
* the frame-pump loop (`runtime_frame`) and its interaction with the
  consumer calls (`wait4frame`, `get_image`);
* the camera lifecycle teardown (`stopcamera`);
* the calibration resampling/averaging phase of `CameraProperties.calibrate`;
* the pose-estimation branch structure of `get_camera_position`;
* the key-local JSON persistence (`save_settings`, `save_calibration`,
  `save_wr`).

State that in the Python source lives on `self` or on the device node map
is passed explicitly; numbers are rationals or integers; operations that
can raise are `Option`-valued or return an explicit outcome constructor.
-/

namespace IdsCamera

/-! ## ROI model (`CameraManager.set_roi`, lines 90-133)

The GenICam nodes `OffsetX`, `OffsetY`, `Width`, `Height` each expose
`Minimum()` / `Maximum()` / `SetValue()`.  `set_roi` reads the four minima,
writes all four values to those minima, reads the four maxima, then
validates the request and either applies it or returns `False`.  The
minima/maxima that the node map reports at those two read points are
captured in `RoiLimits`; the current node values in `RoiValues`. -/

structure RoiLimits where
  xMin : ℤ
  yMin : ℤ
  wMin : ℤ
  hMin : ℤ
  xMax : ℤ
  yMax : ℤ
  wMax : ℤ
  hMax : ℤ
  deriving DecidableEq, Repr

structure RoiValues where
  offsetX : ℤ
  offsetY : ℤ
  width : ℤ
  height : ℤ
  deriving DecidableEq, Repr

/-- The values `set_roi` leaves on the device after lines 106-109: every
node is written to its minimum before the request is validated. -/
def roiMinValues (lim : RoiLimits) : RoiValues :=
  ⟨lim.xMin, lim.yMin, lim.wMin, lim.hMin⟩

/-- `CameraManager.set_roi(x, y, width, height)` (source lines 100-130).
`w?`/`h?` are the optional `width`/`height` arguments; if either is
`None` both default to the maxima (lines 116-118).  Returns the Python
return value and the ROI node values left on the device. -/
def set_roi (lim : RoiLimits) (_cur : RoiValues) (x y : ℤ)
    (w? h? : Option ℤ) : Bool × RoiValues :=
  -- lines 101-109: read the minima and write every node to its minimum
  let afterReset := roiMinValues lim
  -- lines 111-118: read the maxima, default missing width/height to them
  let w := if w?.isNone ∨ h?.isNone then lim.wMax else w?.getD lim.wMax
  let h := if w?.isNone ∨ h?.isNone then lim.hMax else h?.getD lim.hMax
  -- lines 120-130: validate, then either apply or return False
  if x < lim.xMin ∨ y < lim.yMin ∨ x > lim.xMax ∨ y > lim.yMax then
    (false, afterReset)
  else if w < lim.wMin ∨ h < lim.hMin ∨ x + w > lim.wMax ∨ y + h > lim.hMax then
    (false, afterReset)
  else
    (true, ⟨x, y, w, h⟩)

/-- Claim C1, counterexample.  A ROI request rejected because
`x + width` exceeds the maximum width does NOT leave the
previously-applied ROI values unchanged: `set_roi` has already written
all four nodes to their minimums (lines 106-109) before validating, so
the device ends at the minimums, not at the prior `(0, 0, 1920, 1080)`. -/
theorem C1_counterexample :
    (set_roi ⟨0, 0, 16, 16, 1904, 1064, 1920, 1080⟩ ⟨0, 0, 1920, 1080⟩ 100 0
        (some 1920) (some 1080)).1 = false ∧
      (set_roi ⟨0, 0, 16, 16, 1904, 1064, 1920, 1080⟩ ⟨0, 0, 1920, 1080⟩ 100 0
        (some 1920) (some 1080)).2 ≠ ⟨0, 0, 1920, 1080⟩ := by
  constructor
  · rfl
  · decide

/-- Claim C1, amended.  A rejected ROI request (any bound violated,
including `x + width > wMax`) fails — `set_roi` returns `False` and does
not apply the requested values — but the previously-applied ROI values
are not preserved: the device is left with all four parameters reset to
their minimums, which `set_roi` wrote before validating. -/
theorem C1_roi_reject_resets_roi (lim : RoiLimits) (cur : RoiValues)
    (x y w h : ℤ)
    (hrej : x < lim.xMin ∨ y < lim.yMin ∨ x > lim.xMax ∨ y > lim.yMax ∨
      w < lim.wMin ∨ h < lim.hMin ∨ x + w > lim.wMax ∨ y + h > lim.hMax) :
    set_roi lim cur x y (some w) (some h) = (false, roiMinValues lim) := by
  unfold set_roi
  by_cases h1 : x < lim.xMin ∨ y < lim.yMin ∨ x > lim.xMax ∨ y > lim.yMax
  · simp [h1]
  · have h2 : w < lim.wMin ∨ h < lim.hMin ∨ x + w > lim.wMax ∨ y + h > lim.hMax := by
      tauto
    simp [h1, h2]

/-- Witness for `C1_roi_reject_resets_roi` at a concrete rejected request. -/
theorem C1_roi_reject_resets_roi_witness :
    set_roi ⟨0, 0, 16, 16, 1904, 1064, 1920, 1080⟩ ⟨0, 0, 1920, 1080⟩ 100 0
        (some 1920) (some 1080) =
      (false, roiMinValues ⟨0, 0, 16, 16, 1904, 1064, 1920, 1080⟩) :=
  C1_roi_reject_resets_roi _ _ _ _ _ _ (by decide)

/-! ## Exposure model (`CameraManager.set_Exposure`, lines 279-302)

The `ExposureTime` float node holds microseconds; the
`ExposureTime` argument of the setter is in milliseconds and is written as
`1e3 * ExposureTime` (line 297).  A GenICam float node rejects a
`SetValue` outside its reported `[Minimum, Maximum]` by raising an
out-of-range error, which the `except` branch of the setter catches,
returning `False`; `nodeSetFloat` models that capability. -/

structure ExposureState where
  exposureAuto : String
  /-- `ExposureTime` node value, microseconds. -/
  exposureTime : ℚ
  /-- `ExposureTime.Minimum()`, microseconds. -/
  expMin : ℚ
  /-- `ExposureTime.Maximum()`, microseconds. -/
  expMax : ℚ
  deriving DecidableEq

/-- GenICam float-node write: the value is applied only inside the
reported range of the node; otherwise the node raises (modelled as `none`). -/
def nodeSetFloat (lo hi v : ℚ) : Option ℚ :=
  if lo ≤ v ∧ v ≤ hi then some v else none

/-- `CameraManager.set_Exposure(ExposureMode, ExposureTime)` (source
lines 287-299) for an explicit `ExposureTime` argument `t`
(milliseconds).  Line 288 always switches `ExposureAuto` to the
requested mode; the line 294 guard `t > max and t < min` is embedded
verbatim; line 297 writes `1e3 * t` to the node, and an out-of-range
raise from the node is caught by the `except` branch (line 300),
returning `False` with the node value unchanged. -/
def set_Exposure (st : ExposureState) (mode : String) (t : ℚ) :
    Bool × ExposureState :=
  let st1 : ExposureState := { st with exposureAuto := mode }
  if mode = "Off" then
    -- line 294: the guard compares milliseconds with microseconds and
    -- uses `and`; for min ≤ max it can never hold
    if t > st1.expMax ∧ t < st1.expMin then (false, st1)
    else
      match nodeSetFloat st1.expMin st1.expMax (1000 * t) with
      | some v => (true, { st1 with exposureTime := v })
      | none => (false, st1)
  else
    (true, st1)

/-- Claim C6.  A requested manual exposure time `t` (milliseconds,
i.e. `1000 * t` microseconds) outside the device-reported
`[expMin, expMax]` range fails — `set_Exposure` returns `False` — and
leaves the `ExposureTime` node value unchanged; a request inside the
range succeeds and applies exactly `1000 * t`.  (The in-code guard at
line 294 is unsatisfiable whenever `expMin ≤ expMax`; the rejection is
enforced by the out-of-range failure of the node itself, which the setter
catches.)  Only `ExposureAuto` is switched to `"Off"` in both cases. -/
theorem C6_set_exposure_range (st : ExposureState) (t : ℚ) :
    set_Exposure st "Off" t =
      if st.expMin ≤ 1000 * t ∧ 1000 * t ≤ st.expMax then
        (true, { st with exposureAuto := "Off", exposureTime := 1000 * t })
      else
        (false, { st with exposureAuto := "Off" }) := by
  unfold set_Exposure nodeSetFloat
  by_cases hin : st.expMin ≤ 1000 * t ∧ 1000 * t ≤ st.expMax
  · have hguard : ¬ (t > st.expMax ∧ t < st.expMin) := by
      rintro ⟨hgt, hlt⟩
      rcases hin with ⟨hlo, hhi⟩
      -- 1000 t ≤ max < t < min ≤ 1000 t is absurd
      nlinarith
    simp [hguard, hin]
  · by_cases hguard : t > st.expMax ∧ t < st.expMin
    · simp [hguard, hin]
    · simp [hguard, hin]

/-! ## The frame pump (`CameraManager.runtime_frame`, lines 349-374)

One iteration of the `while self.running` loop.  The shared
`CameraManager` state visible to consumers is `running`, `frame_flag`,
`image` and `frame`.  `WaitForFinishedBuffer(100)` either yields a
buffer or hits its 100 ms timeout; the source has no timeout handler
(no `try`/`except` around the call and no branch testing for a timeout
result), so a timeout surfaces as an uncaught raise from the wait call,
exactly like the explicit `raise` on a buffer without an image
(line 359).  An uncaught raise terminates the pump thread. -/

/-- The timeout argument passed to `WaitForFinishedBuffer` (line 356). -/
def waitTimeoutMs : ℕ := 100

/-- Outcome of one `WaitForFinishedBuffer` call: the 100 ms timeout
elapsed, or a finished buffer arrived (with or without image content). -/
inductive WaitResult where
  | timeout
  | buffer (hasImage : Bool) (img : ℕ)
  deriving DecidableEq, Repr

/-- Consumer-shared fields of `CameraManager` touched by the pump. -/
structure MgrState where
  running : Bool
  frame_flag : Bool
  image : Option ℕ
  printFlag : Bool
  frame : Option ℕ
  deriving DecidableEq, Repr

/-- How one pump iteration ends. -/
inductive PumpStep where
  | next
  | exited
  | raised (msg : String)
  deriving DecidableEq, Repr

/-- One iteration of `runtime_frame` (lines 355-373): check `running`;
wait for a buffer; `raise` on a buffer without image content; otherwise
publish the decoded image into `self.image`, set `frame_flag`, requeue
the buffer, and run the display branch if `self.print` is set. -/
def pumpStep (s : MgrState) (w : WaitResult) : MgrState × PumpStep :=
  if ¬ s.running then (s, .exited)
  else
    match w with
    | .timeout => (s, .raised "WaitForFinishedBuffer timeout")
    | .buffer false _ => (s, .raised "Buffer does not contain an image.")
    | .buffer true img =>
      let s1 : MgrState := { s with image := some img, frame_flag := true }
      if s1.printFlag then ({ s1 with frame := some img }, .next)
      else (s1, .next)

/-- The projection of `MgrState` that the consumer calls `get_image`
and `wait4frame` can read: the new-frame flag and the published image. -/
def consumerView (s : MgrState) : Bool × Option ℕ :=
  (s.frame_flag, s.image)

/-- Claim C2, counterexample.  On a filled buffer without image content
the pump raises, but the shared state is left bit-for-bit unchanged —
`running` is still `true`, `frame_flag` and `image` keep their prior
values — so no session-faulted flag is recorded and the next consumer
call (`get_current_frame` / `wait-for-next-frame`) observes exactly the
pre-fault state. -/
theorem C2_counterexample :
    pumpStep ⟨true, false, some 7, false, none⟩ (.buffer false 0) =
        (⟨true, false, some 7, false, none⟩,
          .raised "Buffer does not contain an image.") ∧
      (pumpStep ⟨true, false, some 7, false, none⟩ (.buffer false 0)).1.running
        = true := by
  constructor
  · rfl
  · rfl

/-- Claim C2, amended.  On a filled buffer without valid image content
the pump iteration ends with the uncaught `raise` of line 359 — it is
not retried and, per Python thread semantics, the exception dies with
the pump thread rather than crossing the thread boundary — but the
fault is NOT recorded anywhere: the shared state (including `running`
and everything `consumerView` exposes) is unchanged, so no consumer
call can observe that the session has faulted. -/
theorem C2_no_image_raises_unrecorded (s : MgrState) (img : ℕ)
    (hrun : s.running = true) :
    pumpStep s (.buffer false img) =
        (s, .raised "Buffer does not contain an image.") ∧
      consumerView (pumpStep s (.buffer false img)).1 = consumerView s := by
  constructor
  · simp [pumpStep, hrun]
  · simp [pumpStep, hrun]

/-- Witness for `C2_no_image_raises_unrecorded`. -/
theorem C2_no_image_raises_unrecorded_witness :
    pumpStep ⟨true, true, some 3, false, none⟩ (.buffer false 9) =
        (⟨true, true, some 3, false, none⟩,
          .raised "Buffer does not contain an image.") ∧
      consumerView (pumpStep ⟨true, true, some 3, false, none⟩
          (.buffer false 9)).1 =
        consumerView ⟨true, true, some 3, false, none⟩ :=
  C2_no_image_raises_unrecorded ⟨true, true, some 3, false, none⟩ 9 rfl

/-- Claim C3, counterexample.  When the bounded buffer-wait expires with
no filled buffer, the iteration does NOT continue to the next loop
pass: the source has no timeout branch, so the timeout raises out of
the loop and the pump terminates (step outcome `raised`, not `next`). -/
theorem C3_counterexample :
    (pumpStep ⟨true, false, some 7, false, none⟩ .timeout).2 =
        .raised "WaitForFinishedBuffer timeout" ∧
      (pumpStep ⟨true, false, some 7, false, none⟩ .timeout).2 ≠ .next := by
  constructor
  · rfl
  · decide

/-- Claim C3, amended.  The buffer wait is bounded (100 units,
line 356), but a wait timeout is never handled: in any running state a
timeout ends the iteration with an uncaught raise that terminates the
pump task, instead of re-checking `running` and looping.  The
responsiveness of the loop to `stop()` therefore comes from buffers continuing to
arrive, not from a timeout branch. -/
theorem C3_timeout_terminates_pump (s : MgrState) (hrun : s.running = true) :
    waitTimeoutMs = 100 ∧
      pumpStep s .timeout = (s, .raised "WaitForFinishedBuffer timeout") ∧
      (pumpStep s .timeout).2 ≠ .next := by
  refine ⟨rfl, ?_, ?_⟩
  · simp [pumpStep, hrun]
  · simp [pumpStep, hrun]

/-- Witness for `C3_timeout_terminates_pump`. -/
theorem C3_timeout_terminates_pump_witness :
    waitTimeoutMs = 100 ∧
      pumpStep ⟨true, false, none, false, none⟩ .timeout =
        (⟨true, false, none, false, none⟩,
          .raised "WaitForFinishedBuffer timeout") ∧
      (pumpStep ⟨true, false, none, false, none⟩ .timeout).2 ≠ .next :=
  C3_timeout_terminates_pump ⟨true, false, none, false, none⟩ rfl

/-! ## Lifecycle teardown (`CameraManager.stopcamera`, lines 672-687)

`stopcamera` clears `running`, joins the pump thread if it is alive,
executes `AcquisitionStop` on the remote node map, stops the data
stream, and unconditionally calls `peak.Library.Close()`.  The device
library is process-wide init-once/close-once state (spec §9): after
`Library.Close()` the library is released, node-map and data-stream
handles are invalid, and a further handle operation or a second
`Close()` raises.  `stopcamera` has no `try`/`except`, so such a raise
propagates to the caller. -/

structure LifeState where
  running : Bool
  threadAlive : Bool
  /-- `m_node_map_remote_device is not None`. -/
  hasNodeMap : Bool
  /-- `m_dataStream is not None`. -/
  hasDataStream : Bool
  /-- the peak library is initialized and not yet closed. -/
  libOpen : Bool
  deriving DecidableEq, Repr

inductive StopOutcome where
  | done
  | raised (msg : String)
  deriving DecidableEq, Repr

/-- `CameraManager.stopcamera()` (lines 676-687). -/
def stopcamera (s : LifeState) : LifeState × StopOutcome :=
  -- line 676
  let s1 : LifeState := { s with running := false }
  -- lines 678-679: join only if the thread object exists and is alive
  let s2 : LifeState :=
    if s1.threadAlive then { s1 with threadAlive := false } else s1
  -- lines 681-682: AcquisitionStop via the node-map handle
  if s2.hasNodeMap ∧ ¬ s2.libOpen then
    (s2, .raised "AcquisitionStop on released library")
  -- lines 683-684: StopAcquisition via the data-stream handle
  else if s2.hasDataStream ∧ ¬ s2.libOpen then
    (s2, .raised "StopAcquisition on released library")
  -- line 687: Library.Close(), close-once
  else if ¬ s2.libOpen then
    (s2, .raised "Library.Close on closed library")
  else
    ({ s2 with libOpen := false }, .done)

/-- Claim C7, counterexample.  From the state reached after
`startcamera_auto` (pump running, node map and data stream held,
library open), a first `stopcamera()` completes, but a second
consecutive `stopcamera()` raises: the library was closed by the first
call, and the second call re-executes `AcquisitionStop` on the released
node-map handle (no guard and no exception handler in the source). -/
theorem C7_counterexample :
    (stopcamera ⟨true, true, true, true, true⟩).2 = .done ∧
      (stopcamera (stopcamera ⟨true, true, true, true, true⟩).1).2 =
        .raised "AcquisitionStop on released library" := by
  constructor
  · rfl
  · rfl

/-- Claim C7, amended.  `stopcamera` is guarded against a dead pump
thread (the join is skipped), and a first call from any state holding
the open library completes, leaving the library closed.  It is NOT safe
to call twice: the hardware-stop and `Library.Close()` calls are
unconditional, so the second call operates on the released library and
raises instead of completing. -/
theorem C7_second_stop_raises (s : LifeState)
    (hlib : s.libOpen = true) (hnm : s.hasNodeMap = true) :
    (stopcamera s).2 = .done ∧
      (stopcamera s).1.libOpen = false ∧
      (stopcamera (stopcamera s).1).2 =
        .raised "AcquisitionStop on released library" := by
  unfold stopcamera
  by_cases ht : s.threadAlive <;> simp [ht, hlib, hnm]

/-- Witness for `C7_second_stop_raises`. -/
theorem C7_second_stop_raises_witness :
    (stopcamera ⟨false, false, true, true, true⟩).2 = .done ∧
      (stopcamera ⟨false, false, true, true, true⟩).1.libOpen = false ∧
      (stopcamera (stopcamera ⟨false, false, true, true, true⟩).1).2 =
        .raised "AcquisitionStop on released library" :=
  C7_second_stop_raises ⟨false, false, true, true, true⟩ rfl rfl

/-! ## Consumer wait protocol (`CameraManager.wait4frame`, lines 712-727)

`wait4frame` busy-polls `while not self.frame_flag: sleep(0.001)`, then
executes `self.frame_flag = False` and returns the image.  Sequentially
this is one bounded step: `wait4frameStep` returns `none` while the
flag is down (the caller keeps polling) and otherwise clears the flag
and yields the image.  For the concurrent behaviour the poll exit and
the flag clear are separate interleaving points: `WStep` is the
transition relation of the pump (`publish`, line 362 `frame_flag =
True`) and two consumers, each split into `observe` (the poll loop of
line 723 sees the flag up) and `clear` (lines 726-727). -/

/-- One poll of `wait4frame` (lines 723-727), sequential view. -/
def wait4frameStep (s : MgrState) : Option (MgrState × Option ℕ) :=
  if s.frame_flag then some ({ s with frame_flag := false }, s.image)
  else none

/-- Program counter of one consumer inside `wait4frame`. -/
inductive CPc where
  | waiting
  | gotFlag
  | returned
  deriving DecidableEq, Repr

/-- Interleaving state: the shared `frame_flag`, the number of frame
publications performed by the pump, and two consumers in `wait4frame`. -/
structure WState where
  flag : Bool
  pubs : ℕ
  c1 : CPc
  c2 : CPc
  deriving DecidableEq, Repr

/-- Interleaved transitions of the pump and two `wait4frame` callers.
`publish` is the pump executing `frame_flag = True` (line 362); `observe` is a
consumer poll loop exiting because it read the flag up (line 723);
`clear` is that consumer executing `frame_flag = False` followed by the return
(lines 726-727).  Nothing in the source makes observe-then-clear
atomic. -/
inductive WStep : WState → WState → Prop where
  | publish (f : Bool) (p : ℕ) (a b : CPc) :
      WStep ⟨f, p, a, b⟩ ⟨true, p + 1, a, b⟩
  | observe1 (p : ℕ) (b : CPc) :
      WStep ⟨true, p, .waiting, b⟩ ⟨true, p, .gotFlag, b⟩
  | observe2 (p : ℕ) (a : CPc) :
      WStep ⟨true, p, a, .waiting⟩ ⟨true, p, a, .gotFlag⟩
  | clear1 (f : Bool) (p : ℕ) (b : CPc) :
      WStep ⟨f, p, .gotFlag, b⟩ ⟨false, p, .returned, b⟩
  | clear2 (f : Bool) (p : ℕ) (a : CPc) :
      WStep ⟨f, p, a, .gotFlag⟩ ⟨false, p, a, .returned⟩

/-- Reachability under the interleaving semantics. -/
def WReach : WState → WState → Prop :=
  Relation.ReflTransGen WStep

/-- Claim C9, counterexample.  One frame publication can release TWO
waiting consumers: from the initial state (flag down, both consumers
polling), a single `publish` followed by both consumers observing the
flag before either clears it lets both return.  The final state has
`pubs = 1` and both consumers `returned`, refuting "each frame
publication releases at most one waiting consumer". -/
theorem C9_counterexample :
    WReach ⟨false, 0, .waiting, .waiting⟩ ⟨false, 1, .returned, .returned⟩ ∧
      (⟨false, 1, .returned, .returned⟩ : WState).pubs = 1 := by
  constructor
  · have h1 : WStep ⟨false, 0, .waiting, .waiting⟩ ⟨true, 1, .waiting, .waiting⟩ :=
      WStep.publish false 0 .waiting .waiting
    have h2 : WStep ⟨true, 1, .waiting, .waiting⟩ ⟨true, 1, .gotFlag, .waiting⟩ :=
      WStep.observe1 1 .waiting
    have h3 : WStep ⟨true, 1, .gotFlag, .waiting⟩ ⟨true, 1, .gotFlag, .gotFlag⟩ :=
      WStep.observe2 1 .gotFlag
    have h4 : WStep ⟨true, 1, .gotFlag, .gotFlag⟩ ⟨false, 1, .returned, .gotFlag⟩ :=
      WStep.clear1 true 1 .gotFlag
    have h5 : WStep ⟨false, 1, .returned, .gotFlag⟩ ⟨false, 1, .returned, .returned⟩ :=
      WStep.clear2 false 1 .returned
    exact Relation.ReflTransGen.head h1 (Relation.ReflTransGen.head h2
      (Relation.ReflTransGen.head h3 (Relation.ReflTransGen.head h4
        (Relation.ReflTransGen.single h5))))
  · rfl

/-- Claim C9, amended.  `wait4frame` does clear the new-frame flag
before returning the frame: sequentially, a completing poll yields a
state with `frame_flag = false`, and an immediately following
`wait4frame` call blocks (polls `none`) until the pump publishes again;
in the interleaving model any step that completes the wait of a consumer
lowers the flag, and a consumer polling with the flag down cannot
advance.  However — see the counterexample — the flag read and the
clear are not atomic, so one publication may release MORE than one
concurrently waiting consumer; "at most one" holds only for consumers
that start waiting after the flag has been cleared. -/
theorem C9_wait4frame_clears_flag (s : MgrState) (hflag : s.frame_flag = true)
    (u u' : WState) (hstep : WStep u u') :
    wait4frameStep s = some ({ s with frame_flag := false }, s.image) ∧
      wait4frameStep { s with frame_flag := false } = none ∧
      ((u.c1 = .gotFlag ∧ u'.c1 = .returned) → u'.flag = false) ∧
      (u.flag = false → u.c1 = .waiting → u'.c1 = .waiting) := by
  refine ⟨by simp [wait4frameStep, hflag], by simp [wait4frameStep], ?_, ?_⟩
  · cases hstep <;> simp_all
  · cases hstep <;> simp_all

/-- Witness for `C9_wait4frame_clears_flag`. -/
theorem C9_wait4frame_clears_flag_witness :
    wait4frameStep ⟨true, true, some 5, false, none⟩ =
        some (⟨true, false, some 5, false, none⟩, some 5) ∧
      wait4frameStep ⟨true, false, some 5, false, none⟩ = none ∧
      (((⟨true, 0, .waiting, .waiting⟩ : WState).c1 = .gotFlag ∧
          (⟨true, 0, .gotFlag, .waiting⟩ : WState).c1 = .returned) →
        (⟨true, 0, .gotFlag, .waiting⟩ : WState).flag = false) ∧
      ((⟨true, 0, .waiting, .waiting⟩ : WState).flag = false →
        (⟨true, 0, .waiting, .waiting⟩ : WState).c1 = .waiting →
        (⟨true, 0, .gotFlag, .waiting⟩ : WState).c1 = .waiting) :=
  C9_wait4frame_clears_flag ⟨true, true, some 5, false, none⟩ rfl
    ⟨true, 0, .waiting, .waiting⟩ ⟨true, 0, .gotFlag, .waiting⟩
    (WStep.observe1 0 .waiting)

/-! ## JSON persistence (`save_settings` lines 540-579,
`save_calibration` lines 913-945, `save_wr` lines 1095-1127)

All three save operations follow the same read-modify-write pattern:
read the existing JSON file (or start from `{}`), assign their own keys
on the loaded dict, and dump the whole dict back.  A JSON file is a
finite map from key to value (`JMap`); the file system maps a path to a
file (`FS`, a missing file being the empty map).  The file written is
`setting_path/ID.json`; `CameraManager.__init__` and
`CameraProperties.__init__` both default `setting_path` to
`"camera_settings"`, so by default all three operations share one
file per camera identity. -/

inductive JVal where
  | num (q : ℚ)
  | arr (l : List JVal)
  | obj (fields : List (String × JVal))

/-- A loaded JSON file: key to value. -/
def JMap : Type := String → Option JVal

/-- Python dict assignment `m[k] = v`. -/
def setKey (m : JMap) (k : String) (v : JVal) : JMap :=
  fun q => if q = k then some v else m q

/-- `os.path.join(setting_path, f-string ID.json)`. -/
def settingsFilePath (dir id : String) : String :=
  dir ++ "/" ++ id ++ ".json"

/-- The on-disk state: path to file contents. -/
def FS : Type := String → JMap

/-- `json.dump` of map `m` to path `p`. -/
def writeFile (fs : FS) (p : String) (m : JMap) : FS :=
  fun q => if q = p then m else fs q

/-- Default `setting_path` of both `CameraManager.__init__` (line 19)
and `CameraProperties.__init__` (line 739). -/
def defaultSettingPath : String := "camera_settings"

/-- The current device values `save_settings` reads from the node map
(lines 546-556); `exposure` is the node value in microseconds, stored
divided by `1e3`. -/
structure DeviceSnapshot where
  offsetX : ℚ
  offsetY : ℚ
  width : ℚ
  height : ℚ
  fps : ℚ
  gain : ℚ
  exposure : ℚ

/-- `CameraManager.save_settings()` (lines 546-579): updates the keys
`ROI`, `FPS`, `Gain`, `Exposure` of `mgrPath/id.json`, preserving every
other key of the existing file. -/
def save_settings_fs (mgrPath id : String) (d : DeviceSnapshot)
    (fs : FS) : FS :=
  let p := settingsFilePath mgrPath id
  let m := fs p
  let m := setKey m "ROI" (.obj [("OffsetX", .num d.offsetX),
    ("OffsetY", .num d.offsetY), ("Width", .num d.width),
    ("Height", .num d.height)])
  let m := setKey m "FPS" (.num d.fps)
  let m := setKey m "Gain" (.num d.gain)
  let m := setKey m "Exposure" (.num (d.exposure / 1000))
  writeFile fs p m

/-- `CameraProperties.save_calibration()` (lines 919-945): updates the
keys `CameraMatrix` and `DistortionCoefficients` of
`propsPath/id.json`, preserving every other key, then calls
`self.camera.save_settings()` (line 943), which writes the settings
keys of `mgrPath/id.json`. -/
def save_calibration_fs (propsPath mgrPath id : String) (cm dj : JVal)
    (d : DeviceSnapshot) (fs : FS) : FS :=
  let p := settingsFilePath propsPath id
  let m := fs p
  let m := setKey m "CameraMatrix" cm
  let m := setKey m "DistortionCoefficients" dj
  save_settings_fs mgrPath id d (writeFile fs p m)

/-- `CameraProperties.save_wr()` (lines 1101-1127): updates the keys
`RotationVector`, `TranslationVector`, `ProjectionMatrix` of
`propsPath/id.json`, preserving every other key. -/
def save_wr_fs (propsPath id : String) (rv tv pm : JVal) (fs : FS) : FS :=
  let p := settingsFilePath propsPath id
  let m := fs p
  let m := setKey m "RotationVector" rv
  let m := setKey m "TranslationVector" tv
  let m := setKey m "ProjectionMatrix" pm
  writeFile fs p m

theorem setKey_ne {m : JMap} {k : String} {v : JVal} {q : String}
    (h : q ≠ k) : setKey m k v q = m q :=
  if_neg h

theorem writeFile_ne {fs : FS} {p : String} {m : JMap} {q : String}
    (h : q ≠ p) : writeFile fs p m q = fs q :=
  if_neg h

theorem writeFile_self {fs : FS} {p : String} {m : JMap} :
    writeFile fs p m p = m :=
  if_pos rfl

/-- Any key other than the two calibration keys and the four settings
keys is left unchanged, in every file, by `save_calibration` — for any
combination of the two `setting_path` attributes. -/
theorem save_calibration_fs_other_key (pp mp id : String) (cm dj : JVal)
    (d : DeviceSnapshot) (fs : FS) (p K : String)
    (h1 : K ≠ "CameraMatrix") (h2 : K ≠ "DistortionCoefficients")
    (h3 : K ≠ "ROI") (h4 : K ≠ "FPS") (h5 : K ≠ "Gain")
    (h6 : K ≠ "Exposure") :
    save_calibration_fs pp mp id cm dj d fs p K = fs p K := by
  unfold save_calibration_fs save_settings_fs
  by_cases hp2 : p = settingsFilePath mp id
  · subst hp2
    rw [writeFile_self, setKey_ne h6, setKey_ne h5, setKey_ne h4,
      setKey_ne h3]
    by_cases hp1 : settingsFilePath mp id = settingsFilePath pp id
    · rw [hp1, writeFile_self, setKey_ne h2, setKey_ne h1]
    · rw [writeFile_ne hp1]
  · rw [writeFile_ne hp2]
    by_cases hp1 : p = settingsFilePath pp id
    · subst hp1
      rw [writeFile_self, setKey_ne h2, setKey_ne h1]
    · rw [writeFile_ne hp1]

/-- Claim C10.  With the default construction (both `setting_path`
attributes equal to `"camera_settings"`), settings, calibration and
pose records share the single file `camera_settings/ID.json`: each of
the three save operations leaves every other path untouched.  And
`save_calibration` is key-local: for any paths, it rewrites only
`CameraMatrix`/`DistortionCoefficients` plus (via its trailing
`save_settings` call) `ROI`/`FPS`/`Gain`/`Exposure`, leaving
`RotationVector`, `TranslationVector` and `ProjectionMatrix` of every
file unchanged. -/
theorem C10_persistence_key_local (id : String) (cm dj rv tv pm : JVal)
    (d : DeviceSnapshot) (fs : FS) :
    (∀ p, p ≠ settingsFilePath defaultSettingPath id →
      save_settings_fs defaultSettingPath id d fs p = fs p ∧
      save_calibration_fs defaultSettingPath defaultSettingPath id cm dj d
        fs p = fs p ∧
      save_wr_fs defaultSettingPath id rv tv pm fs p = fs p) ∧
    (∀ pp mp p,
      save_calibration_fs pp mp id cm dj d fs p "RotationVector" =
        fs p "RotationVector" ∧
      save_calibration_fs pp mp id cm dj d fs p "TranslationVector" =
        fs p "TranslationVector" ∧
      save_calibration_fs pp mp id cm dj d fs p "ProjectionMatrix" =
        fs p "ProjectionMatrix") := by
  constructor
  · intro p hp
    refine ⟨?_, ?_, ?_⟩
    · unfold save_settings_fs
      rw [writeFile_ne hp]
    · unfold save_calibration_fs save_settings_fs
      rw [writeFile_ne hp, writeFile_ne hp]
    · unfold save_wr_fs
      rw [writeFile_ne hp]
  · intro pp mp p
    refine ⟨?_, ?_, ?_⟩ <;>
      exact save_calibration_fs_other_key pp mp id cm dj d fs p _
        (by decide) (by decide) (by decide) (by decide) (by decide)
        (by decide)

/-- A concrete empty file system. -/
def fsEmpty : FS := fun _ => fun _ => none

/-- Witness for `C10_persistence_key_local` at a concrete camera,
evaluating the untouched-path conjunct at the path
`"elsewhere/cam.json"` and the pose-key conjunct at a concrete pair of
setting paths. -/
theorem C10_persistence_key_local_witness :
    save_calibration_fs defaultSettingPath defaultSettingPath "cam"
        (.num 1) (.num 2) ⟨0, 0, 0, 0, 0, 0, 0⟩ fsEmpty "elsewhere/cam.json" =
      fsEmpty "elsewhere/cam.json" ∧
    save_calibration_fs "a" "b" "cam" (.num 1) (.num 2) ⟨0, 0, 0, 0, 0, 0, 0⟩
        fsEmpty "a/cam.json" "RotationVector" =
      fsEmpty "a/cam.json" "RotationVector" :=
  ⟨((C10_persistence_key_local "cam" (.num 1) (.num 2) (.num 0) (.num 0)
      (.num 0) ⟨0, 0, 0, 0, 0, 0, 0⟩ fsEmpty).1 "elsewhere/cam.json"
      (by decide)).2.1,
    ((C10_persistence_key_local "cam" (.num 1) (.num 2) (.num 0) (.num 0)
      (.num 0) ⟨0, 0, 0, 0, 0, 0, 0⟩ fsEmpty).2 "a" "b" "a/cam.json").1⟩

/-! ## Calibration resampling (`CameraProperties.calibrate`, lines 840-910)

After the detection phase has accepted `n` valid chessboard corner
sets, lines 843-858 build `num_batches = n // 30` and run
`4 * num_batches` iterations; each iteration calls
`np.random.choice(n, 50, replace=False)` to pick 50 distinct indices
into the sample pool and runs `cv2.calibrateCamera` on that batch.
Lines 861-862 average the collected candidate matrices elementwise
(`np.mean(..., axis=0)`).  The multi-view solver is an external
capability, modelled as an oracle `solve` from the drawn index set to a
candidate `(intrinsics, distortion)`; the random number generator is an
oracle `rng` giving the raw draw of each iteration.
`np.random.choice(n, k, replace=False)` raises `ValueError` when
`k > n` (a sample larger than the population cannot be drawn without
replacement), and otherwise returns `k` distinct indices below `n`. -/

/-- A 3 × 3 intrinsic matrix. -/
def Mat3 : Type := Fin 3 → Fin 3 → ℚ

/-- A distortion-coefficient vector (`cv2.calibrateCamera` default: 5). -/
def Dist5 : Type := Fin 5 → ℚ

/-- What `np.random.choice(n, k, replace=False)` guarantees of a
successful draw: `k` distinct indices into a pool of size `n`. -/
def drawOK (n k : ℕ) (l : List ℕ) : Prop :=
  l.Nodup ∧ l.length = k ∧ ∀ i ∈ l, i < n

instance (n k : ℕ) (l : List ℕ) : Decidable (drawOK n k l) := by
  unfold drawOK
  infer_instance

/-- The indices a draw yields: the raw RNG output when it is a
well-formed draw, a canonical valid draw otherwise (the RNG oracle is
only meaningful on well-formed outputs). -/
def chosen (n k : ℕ) (raw : List ℕ) : List ℕ :=
  if drawOK n k raw then raw else (List.range n).take k

/-- `np.random.choice(n, k, replace=False)`: `ValueError` (`none`)
exactly when `k > n`, otherwise `k` distinct indices below `n`. -/
def npChoiceNoRep (n k : ℕ) (raw : List ℕ) : Option (List ℕ) :=
  if k ≤ n then some (chosen n k raw) else none

theorem chosen_drawOK {n k : ℕ} (hk : k ≤ n) (raw : List ℕ) :
    drawOK n k (chosen n k raw) := by
  unfold chosen
  split
  · assumption
  · refine ⟨(List.nodup_range n).sublist (List.take_sublist _ _), ?_, ?_⟩
    · rw [List.length_take, List.length_range]
      exact Nat.min_eq_left hk
    · intro i hi
      exact List.mem_range.mp ((List.take_sublist _ _).subset hi)

/-- `4 * num_batches` with `num_batches = n // 30` (lines 843, 849). -/
def calibIterations (n : ℕ) : ℕ := 4 * (n / 30)

/-- The first `m` iterations of the resampling loop (line 849-858):
each draws a batch and appends the solver candidate; a `ValueError`
from the draw aborts the run. -/
def candidatesUpTo (n : ℕ) (rng : ℕ → List ℕ)
    (solve : List ℕ → Mat3 × Dist5) : ℕ → Option (List (Mat3 × Dist5))
  | 0 => some []
  | t + 1 =>
    match candidatesUpTo n rng solve t, npChoiceNoRep n 50 (rng t) with
    | some cs, some b => some (cs ++ [solve b])
    | _, _ => none

/-- The full resampling loop: `4 * (n / 30)` iterations. -/
def resampleCandidates (n : ℕ) (rng : ℕ → List ℕ)
    (solve : List ℕ → Mat3 × Dist5) : Option (List (Mat3 × Dist5)) :=
  candidatesUpTo n rng solve (calibIterations n)

/-- `np.mean(cmtxs, axis=0)` (line 861): elementwise mean. -/
def elemMeanM (ms : List Mat3) : Mat3 :=
  fun i j => (ms.map (fun m => m i j)).sum / (ms.length : ℚ)

/-- `np.mean(dists, axis=0)` (line 862): elementwise mean. -/
def elemMeanD (ds : List Dist5) : Dist5 :=
  fun i => (ds.map (fun d => d i)).sum / (ds.length : ℚ)

/-- Lines 849-862 as one function: candidates, then their means. -/
def calibResampleResult (n : ℕ) (rng : ℕ → List ℕ)
    (solve : List ℕ → Mat3 × Dist5) : Option (Mat3 × Dist5) :=
  (resampleCandidates n rng solve).map
    (fun cs => (elemMeanM (cs.map Prod.fst), elemMeanD (cs.map Prod.snd)))

theorem candidatesUpTo_eq (n : ℕ) (rng : ℕ → List ℕ)
    (solve : List ℕ → Mat3 × Dist5) (hn : 50 ≤ n) (m : ℕ) :
    candidatesUpTo n rng solve m =
      some ((List.range m).map (fun t => solve (chosen n 50 (rng t)))) := by
  induction m with
  | zero => rfl
  | succ m ih => simp [candidatesUpTo, ih, npChoiceNoRep, hn, List.range_succ]

/-- A trivial RNG oracle (always the empty raw draw). -/
def rngZero : ℕ → List ℕ := fun _ => []

/-- A trivial solver oracle (always the zero candidate). -/
def solveZero : List ℕ → Mat3 × Dist5 := fun _ => (fun _ _ => 0, fun _ => 0)

/-- Claim C4, counterexample.  For a pool of exactly `n = 30` accepted
samples the claim asks for `4 * (30 / 30) = 4` iterations, each drawing
50 samples without replacement from the pool of 30 — but no such draw
exists (50 distinct indices below 30 are impossible), and
`np.random.choice(30, 50, replace=False)` raises `ValueError`, so the
resampling loop aborts on its first iteration instead of producing the
4 candidate solves and their mean. -/
theorem C4_counterexample :
    calibIterations 30 = 4 ∧
      resampleCandidates 30 rngZero solveZero = none ∧
      ¬ ∃ l : List ℕ, drawOK 30 50 l := by
  refine ⟨rfl, rfl, ?_⟩
  rintro ⟨l, hnd, hlen, hmem⟩
  have hsub : l.toFinset ⊆ Finset.range 30 := by
    intro i hi
    exact Finset.mem_range.mpr (hmem i (List.mem_toFinset.mp hi))
  have hcard : l.toFinset.card = 50 := by
    rw [List.toFinset_card_of_nodup hnd, hlen]
  have hle := Finset.card_le_card hsub
  rw [hcard, Finset.card_range] at hle
  omega

/-- Claim C4, amended.  For a pool of `n ≥ 50` valid samples the
resampling phase behaves as claimed: it runs exactly `4 * (n / 30)`
iterations, each drawing 50 distinct indices from the pool (a draw
without replacement) and solving on that batch, and the final
intrinsics/distortion are the elementwise means of all collected
candidates.  For `30 ≤ n < 50` the first draw raises instead (see the
counterexample). -/
theorem C4_resample_phase (n : ℕ) (rng : ℕ → List ℕ)
    (solve : List ℕ → Mat3 × Dist5) (hn : 50 ≤ n) :
    (∀ t, drawOK n 50 (chosen n 50 (rng t))) ∧
      resampleCandidates n rng solve =
        some ((List.range (4 * (n / 30))).map
          (fun t => solve (chosen n 50 (rng t)))) ∧
      ∀ cs, resampleCandidates n rng solve = some cs →
        cs.length = 4 * (n / 30) ∧
        calibResampleResult n rng solve =
          some (elemMeanM (cs.map Prod.fst), elemMeanD (cs.map Prod.snd)) := by
  have hin : resampleCandidates n rng solve =
      some ((List.range (calibIterations n)).map
        (fun t => solve (chosen n 50 (rng t)))) :=
    candidatesUpTo_eq n rng solve hn (calibIterations n)
  refine ⟨fun t => chosen_drawOK hn (rng t), hin, ?_⟩
  intro cs hcs
  rw [hin] at hcs
  cases hcs
  constructor
  · rw [List.length_map, List.length_range]
    rfl
  · rw [calibResampleResult, hin]
    rfl

/-- Witness for `C4_resample_phase` at `n = 60` with the trivial RNG and
solver oracles: `4 * (60 / 30) = 8` iterations, each drawing the
canonical 50-element subset. -/
theorem C4_resample_phase_witness :
    (∀ t, drawOK 60 50 (chosen 60 50 (rngZero t))) ∧
      resampleCandidates 60 rngZero solveZero =
        some ((List.range (4 * (60 / 30))).map
          (fun t => solveZero (chosen 60 50 (rngZero t)))) ∧
      ∀ cs, resampleCandidates 60 rngZero solveZero = some cs →
        cs.length = 4 * (60 / 30) ∧
        calibResampleResult 60 rngZero solveZero =
          some (elemMeanM (cs.map Prod.fst), elemMeanD (cs.map Prod.snd)) :=
  C4_resample_phase 60 rngZero solveZero (by decide)

/-! ## The post-detection outcome of `calibrate` (lines 840-910, C5)

The source contains NO minimum-sample check: after reporting the count
of valid images it goes straight into the resampling loop.  With
`n < 30` that loop runs `4 * (n // 30) = 0` iterations, so
`np.mean(cmtxs, axis=0)` is taken over an empty list, yielding a NaN
scalar instead of a 3 × 3 matrix, and the validation phase then faults
when `cv2.solvePnP` is handed that invalid intrinsics object — before
any call to `save_calibration` (line 910, reached only on the success
branch).  `CalibOutcome.insufficientSamples` is the early rejection the
spec expects (§4.3/§8); the source path never produces it. -/

inductive CalibOutcome where
  /-- Validation passed; `save_calibration()` executed (line 910). -/
  | saved (cmtx : Mat3) (dist : Dist5)
  /-- Validation error above 1 pixel: report and prompt for a retry
  (lines 901-906); nothing persisted. -/
  | retryPrompt (err : ℚ)
  /-- The early `InsufficientSamples` rejection the spec describes;
  not produced by any path of the source. -/
  | insufficientSamples
  /-- `np.random.choice(n, 50, replace=False)` raised `ValueError`. -/
  | faultDraw
  /-- Zero candidates collected: the empty-axis mean yields no valid
  3 × 3 intrinsics and the validation solve faults; nothing persisted. -/
  | faultEmptyMean

/-- Lines 842-910 of `calibrate`, given the count `n` of valid samples
accepted by the detection phase: resampling loop, elementwise means,
then the validation phase (whose mean reprojection error over the 50
random held-out trials is the oracle `valErr`), ending in
`save_calibration` only when that error is ≤ 1 pixel. -/
def calibrateAfterDetection (n : ℕ) (rng : ℕ → List ℕ)
    (solve : List ℕ → Mat3 × Dist5) (valErr : Mat3 → Dist5 → ℚ) :
    CalibOutcome :=
  match resampleCandidates n rng solve with
  | none => .faultDraw
  | some [] => .faultEmptyMean
  | some (c :: cs) =>
    let cmtx := elemMeanM ((c :: cs).map Prod.fst)
    let dist := elemMeanD ((c :: cs).map Prod.snd)
    if 1 < valErr cmtx dist then .retryPrompt (valErr cmtx dist)
    else .saved cmtx dist

/-- `save_calibration` runs only in the `saved` outcome (line 910). -/
def calibPersists : CalibOutcome → Bool
  | .saved _ _ => true
  | _ => false

/-- The effect of one `calibrate` run on the persisted files:
`save_calibration` (and its trailing `save_settings`) runs only when
the run reaches the success branch. -/
def calibrateRunFs (n : ℕ) (rng : ℕ → List ℕ)
    (solve : List ℕ → Mat3 × Dist5) (valErr : Mat3 → Dist5 → ℚ)
    (propsPath mgrPath id : String) (cm dj : JVal) (d : DeviceSnapshot)
    (fs : FS) : FS :=
  if calibPersists (calibrateAfterDetection n rng solve valErr) then
    save_calibration_fs propsPath mgrPath id cm dj d fs
  else fs

/-- A constant-zero validation-error oracle. -/
def valErrZero : Mat3 → Dist5 → ℚ := fun _ _ => 0

/-- Claim C5, counterexample.  At `n = 29` valid samples `calibrate`
does NOT fail with `InsufficientSamples` before the resampling phase:
there is no such check, the resampling loop runs its zero iterations,
and the run ends in the empty-candidate-mean fault.  (The
persists-nothing half of the claim does hold: `calibPersists` is false
and the file system is untouched.) -/
theorem C5_counterexample :
    calibrateAfterDetection 29 rngZero solveZero valErrZero =
        .faultEmptyMean ∧
      calibrateAfterDetection 29 rngZero solveZero valErrZero ≠
        .insufficientSamples ∧
      calibPersists (calibrateAfterDetection 29 rngZero solveZero valErrZero)
        = false := by
  refine ⟨rfl, ?_, rfl⟩
  intro h
  exact CalibOutcome.noConfusion h

/-- Claim C5, amended.  A calibration run whose detection phase yields
`n < 30` valid samples persists nothing — `save_calibration` is never
reached, so the `CameraMatrix`/`DistortionCoefficients` keys are not
written — but it does not fail with `InsufficientSamples` before the
resampling phase: no such check exists.  The resampling loop runs its
`4 * (n / 30) = 0` iterations and the run then faults on the mean of
the empty candidate list (invalid intrinsics fed to the validation
solve). -/
theorem C5_small_pool_faults_unpersisted (n : ℕ) (rng : ℕ → List ℕ)
    (solve : List ℕ → Mat3 × Dist5) (valErr : Mat3 → Dist5 → ℚ)
    (propsPath mgrPath id : String) (cm dj : JVal) (d : DeviceSnapshot)
    (fs : FS) (hn : n < 30) :
    calibIterations n = 0 ∧
      calibrateAfterDetection n rng solve valErr = .faultEmptyMean ∧
      calibrateRunFs n rng solve valErr propsPath mgrPath id cm dj d fs
        = fs := by
  have hiter : calibIterations n = 0 := by
    unfold calibIterations
    rw [Nat.div_eq_of_lt hn]
  have hcands : resampleCandidates n rng solve = some [] := by
    unfold resampleCandidates
    rw [hiter]
    rfl
  have hout : calibrateAfterDetection n rng solve valErr = .faultEmptyMean := by
    unfold calibrateAfterDetection
    rw [hcands]
  refine ⟨hiter, hout, ?_⟩
  unfold calibrateRunFs
  rw [hout]
  rfl

/-- Witness for `C5_small_pool_faults_unpersisted` at `n = 29`. -/
theorem C5_small_pool_faults_unpersisted_witness :
    calibIterations 29 = 0 ∧
      calibrateAfterDetection 29 rngZero solveZero valErrZero =
        .faultEmptyMean ∧
      calibrateRunFs 29 rngZero solveZero valErrZero defaultSettingPath
        defaultSettingPath "cam" (.num 1) (.num 2) ⟨0, 0, 0, 0, 0, 0, 0⟩
        fsEmpty = fsEmpty :=
  C5_small_pool_faults_unpersisted 29 rngZero solveZero valErrZero
    defaultSettingPath defaultSettingPath "cam" (.num 1) (.num 2)
    ⟨0, 0, 0, 0, 0, 0, 0⟩ fsEmpty (by decide)

/-! ## Pose estimation (`CameraProperties.get_camera_position`,
lines 1011-1093, and `save_wr`, lines 1095-1127)

Branch structure of `get_camera_position`: load the calibration if not
resident (fail returning `False`); default `patternSize`/`squareSize`;
build the default `offset_xyz` as the Python expression
`[1, (patternSize[1] - 1) / 2, 0] * squareSize` (line 1022) — a list
repeated `squareSize` times when `squareSize` is an `int`, a
`TypeError` when it is a `float` — and compare against the same
expression rebuilt from the arguments (line 1024); resolve the
reference image (argument path, `last_good_reference`, or the saved
png); displace the chessboard template by the offset (a numpy
broadcast, faulting unless the offset has length 3 or 1); run
chessboard detection.  On failed detection: print and `return False`
(lines 1091-1093), with no retry and no file write.  On successful
detection the source reaches line 1082, `cameraMATRIX.T` with
`cameraMATRIX = [0, 0, 0]` a plain Python list, which raises
`AttributeError` before the `save_wr()` call of line 1087 — so no
branch of `get_camera_position` ever writes the pose file. -/

/-- A Python number: `int` or `float`. -/
inductive PyNum where
  | int (z : ℤ)
  | float (q : ℚ)
  deriving DecidableEq, Repr

def PyNum.toQ : PyNum → ℚ
  | .int z => (z : ℚ)
  | .float q => q

/-- Python `l * s` for a list `l`: sequence repetition when `s` is an
`int` (empty for a non-positive count), `TypeError` (`none`) when `s`
is a `float`. -/
def listMulPy (l : List ℚ) : PyNum → Option (List ℚ)
  | .int z => some (List.flatten (List.replicate z.toNat l))
  | .float _ => none

/-- `load_calibration` (lines 947-977) succeeds iff the settings file
holds both calibration keys (missing file = empty map = failure). -/
def load_calibration_ok (m : JMap) : Bool :=
  (m "CameraMatrix").isSome && (m "DistortionCoefficients").isSome

inductive PoseOutcome where
  /-- lines 1013-1015: no resident and no loadable calibration. -/
  | calibrationMissing
  /-- line 1022 or 1024-1026: `list * float` raised `TypeError`. -/
  | typeErrorOffset
  /-- line 1030: `self.last_good_reference` was never assigned. -/
  | missingAttrFault
  /-- lines 1032-1034 / 1040-1042: no reference image available. -/
  | referenceMissing
  /-- line 1046: `cRW += offset_xyz` with a non-broadcastable length. -/
  | broadcastFault
  /-- lines 1091-1093: chessboard detection failed; `return False`. -/
  | patternNotFound
  /-- line 1082: `[0, 0, 0].T` raises `AttributeError` on the success
  branch, before `save_wr()` (line 1087). -/
  | successBranchFault
  deriving DecidableEq, Repr

/-- The `CameraProperties` state `get_camera_position` reads. -/
structure PoseEnv where
  propsPath : String
  id : String
  /-- `self.cmtx is not None and self.dist is not None`. -/
  calibResident : Bool
  /-- `self.patternSize` / `self.squareSize` when already set. -/
  patternSize : Option (ℤ × ℤ)
  squareSize : Option PyNum
  /-- whether `self.last_good_reference` was ever assigned (only
  `ReferenceFrame_acquisition` assigns it; `__init__` does not). -/
  lastGoodRefDefined : Bool
  lastGoodRef : Option ℕ
  /-- the saved reference image `propsPath/id.png`, if the file exists. -/
  refPng : Option ℕ
  /-- chessboard-corner detection oracle (`cv2.findChessboardCorners`). -/
  detect : ℕ → Bool

/-- Lines 1045-1093 once the reference image `img` and the offset list
`off` are fixed: the numpy broadcast `cRW += offset_xyz`, then
detection; detection failure returns `False` with no write, detection
success faults at line 1082 before `save_wr`. -/
def poseAfterImage (detect : ℕ → Bool) (off : List ℚ) (img : ℕ)
    (fs : FS) : PoseOutcome × FS :=
  if off.length = 3 ∨ off.length = 1 then
    if detect img then (.successBranchFault, fs) else (.patternNotFound, fs)
  else (.broadcastFault, fs)

/-- `CameraProperties.get_camera_position(image_wr, patternSize,
squareSize, offset_xyz)` (lines 1011-1093).  `imageWr = none` means the
argument was not passed; `imageWr = some none` means a path was passed
but `cv2.imread` failed. -/
def get_camera_position (env : PoseEnv) (fs : FS)
    (imageWr : Option (Option ℕ)) (psArg : ℤ × ℤ) (sqArg : PyNum)
    (offArg : Option (List ℚ)) : PoseOutcome × FS :=
  -- lines 1013-1015
  if ¬ (env.calibResident = true ∨
      load_calibration_ok (fs (settingsFilePath env.propsPath env.id))
        = true) then
    (.calibrationMissing, fs)
  else
    -- lines 1017-1019
    let psq : (ℤ × ℤ) × PyNum :=
      match env.patternSize, env.squareSize with
      | some p, some s => (p, s)
      | _, _ => (psArg, sqArg)
    -- lines 1021-1022
    let off0? : Option (List ℚ) :=
      match offArg with
      | some l => some l
      | none => listMulPy [1, ((psq.1.2 : ℚ) - 1) / 2, 0] psq.2
    match off0? with
    | none => (.typeErrorOffset, fs)
    | some off0 =>
      -- line 1024: the comparison list is rebuilt from the arguments
      match listMulPy [1, ((psArg.2 : ℚ) - 1) / 2, 0] sqArg with
      | none => (.typeErrorOffset, fs)
      | some cmp =>
        -- lines 1024-1026
        let off1? : Option (List ℚ) :=
          if off0 = cmp then
            if off0.headD 0 ≠ psq.2.toQ then
              listMulPy [1, ((psq.1.2 : ℚ) - 1) / 2, 0] psq.2
            else some off0
          else some off0
        match off1? with
        | none => (.typeErrorOffset, fs)
        | some off =>
          -- lines 1029-1042: resolve the reference image
          match imageWr with
          | some none => (.referenceMissing, fs)
          | some (some img) => poseAfterImage env.detect off img fs
          | none =>
            if env.lastGoodRefDefined = false then (.missingAttrFault, fs)
            else
              match env.lastGoodRef with
              | some i => poseAfterImage env.detect off i fs
              | none =>
                match env.refPng with
                | some i => poseAfterImage env.detect off i fs
                | none => (.referenceMissing, fs)

theorem poseAfterImage_snd (detect : ℕ → Bool) (off : List ℚ) (img : ℕ)
    (fs : FS) : (poseAfterImage detect off img fs).2 = fs := by
  unfold poseAfterImage
  split
  · split <;> rfl
  · rfl

/-- Claim C8.  When chessboard detection fails on the reference image,
`get_camera_position` fails with the pattern-not-found outcome
(`return False` after the line 1092 message), performs no retry, and
leaves the persisted files — in particular any prior `RotationVector`,
`TranslationVector`, `ProjectionMatrix` record — untouched.  Moreover
NO path of `get_camera_position` writes any file: the only `save_wr`
call site sits on the success branch (line 1087), after the line 1082
fault, so the pose file is written only (in fact never) from the
success branch. -/
theorem C8_pattern_not_found_no_write (env : PoseEnv) (fs : FS)
    (img : ℕ) (psArg : ℤ × ℤ) (s : ℤ) (off : List ℚ)
    (hcal : env.calibResident = true)
    (hlen : off.length = 3)
    (hne : listMulPy [1, ((psArg.2 : ℚ) - 1) / 2, 0] (.int s) ≠ some off)
    (hdet : env.detect img = false) :
    get_camera_position env fs (some (some img)) psArg (.int s) (some off)
        = (.patternNotFound, fs) ∧
      ∀ (fs' : FS) (iw : Option (Option ℕ)) (ps : ℤ × ℤ) (sq : PyNum)
        (oa : Option (List ℚ)),
        (get_camera_position env fs' iw ps sq oa).2 = fs' := by
  constructor
  · have hoff : off ≠ List.flatten (List.replicate s.toNat
        [1, ((psArg.2 : ℚ) - 1) / 2, 0]) := by
      intro h
      exact hne (by rw [listMulPy, h])
    unfold get_camera_position poseAfterImage
    simp [hcal, hoff, hlen, hdet, listMulPy]
  · intro fs' iw ps sq oa
    unfold get_camera_position
    dsimp only
    repeat' split
    all_goals first
      | rfl
      | exact poseAfterImage_snd _ _ _ _

/-- A pose environment for the witness: resident calibration, an
always-failing detector. -/
def envW : PoseEnv :=
  ⟨defaultSettingPath, "cam", true, none, none, false, none, none,
    fun _ => false⟩

/-- Witness for `C8_pattern_not_found_no_write`: an explicit reference
image on which detection fails, an explicit 3-element offset, an
integer square size. -/
theorem C8_pattern_not_found_no_write_witness :
    get_camera_position envW fsEmpty (some (some 0)) (3, 6) (.int 50)
        (some [50, 127, 0]) = (.patternNotFound, fsEmpty) ∧
      ∀ (fs' : FS) (iw : Option (Option ℕ)) (ps : ℤ × ℤ) (sq : PyNum)
        (oa : Option (List ℚ)),
        (get_camera_position envW fs' iw ps sq oa).2 = fs' :=
  C8_pattern_not_found_no_write envW fsEmpty 0 (3, 6) 50 [50, 127, 0]
    rfl rfl (by decide) rfl

end IdsCamera
